import Mathlib

/-!
Shallow embedding of the EmoHarmony PDF report generator
(`exportResultAsPDF` and its section helpers, from the jsPDF-based
report module). Pure data and geometry are modelled exactly as the
JavaScript source computes them; JavaScript numbers are modelled as ℚ,
object-literal property lookup is modelled including the
`Object.prototype` chain (a plain object literal inherits truthy
members such as `constructor` and `toString`, so `table[key] || fb`
does not fall back for those keys).
-/

set_option maxRecDepth 100000

namespace EmoHarmony

/-- An RGB color triple, as the `[r, g, b]` arrays of the source. -/
abbrev RGB := ℕ × ℕ × ℕ

/-- Source table `EMOTION_COLORS`: Happy [245,158,11], Calm
[16,185,129], Stress [139,92,246], Angry [239,68,68], Sad
[59,130,246]. -/
def EMOTION_COLORS : List (String × RGB) :=
  [("Happy", (245, 158, 11)),
   ("Calm", (16, 185, 129)),
   ("Stress", (139, 92, 246)),
   ("Angry", (239, 68, 68)),
   ("Sad", (59, 130, 246))]

/-- The `bandColors` table of `addBandPowerTable`. -/
def bandColors : List (String × RGB) :=
  [("delta", (59, 130, 246)),
   ("theta", (139, 92, 246)),
   ("alpha", (16, 185, 129)),
   ("beta", (245, 158, 11)),
   ("gamma", (239, 68, 68))]

/-- The shared fallback color `[99, 102, 241]` used at every
`|| [99, 102, 241]` site of the source. -/
def fallbackColor : RGB := (99, 102, 241)

/-- Property names inherited by every plain object literal from
`Object.prototype`; indexing an object literal with one of these keys
yields a truthy inherited value (a function, or the prototype object
for `__proto__`), not `undefined`. -/
def objectProtoProps : List String :=
  ["constructor", "hasOwnProperty", "isPrototypeOf",
   "propertyIsEnumerable", "toLocaleString", "toString", "valueOf",
   "__defineGetter__", "__defineSetter__", "__lookupGetter__",
   "__lookupSetter__", "__proto__"]

/-- Result of the JavaScript expression `table[key]` on a color table:
either an own color array, a truthy value inherited from
`Object.prototype`, or `undefined`. -/
inductive ColorVal where
  | rgb : RGB → ColorVal
  | protoVal : ColorVal
  | undef : ColorVal
deriving DecidableEq, Repr

/-- Own-property lookup in an object literal viewed as an association
list (keys in declaration order). -/
def tableGet {α : Type} : List (String × α) → String → Option α
  | [], _ => none
  | (k, v) :: rest, key => if key = k then some v else tableGet rest key

/-- Evaluation of `table[key]` on a color-table object literal,
including the `Object.prototype` chain. -/
def jsIndex (table : List (String × RGB)) (key : String) : ColorVal :=
  match tableGet table key with
  | some c => ColorVal.rgb c
  | none => if key ∈ objectProtoProps then ColorVal.protoVal else ColorVal.undef

/-- JavaScript truthiness of a `ColorVal`: color arrays and inherited
prototype members are truthy, `undefined` is falsy. -/
def ColorVal.truthy : ColorVal → Bool
  | ColorVal.undef => false
  | _ => true

/-- The source idiom `table[key] || [99, 102, 241]`. -/
def resolveColor (table : List (String × RGB)) (key : String) : ColorVal :=
  let v := jsIndex table key
  if v.truthy then v else ColorVal.rgb fallbackColor

/-- The two color categories of the theme resolver. -/
inductive Category where
  | emotion : Category
  | band : Category
deriving DecidableEq, Repr

/-- The contract `colorFor(category, key)` of the spec: category-directed color
resolution with the shared fallback. -/
def colorFor : Category → String → ColorVal
  | Category.emotion, key => resolveColor EMOTION_COLORS key
  | Category.band, key => resolveColor bandColors key

-- ── addEmotionScoreBar geometry ──────────────────────────────────────

/-- Source expression `pct = Math.min(score * 100, 100)` in
`addEmotionScoreBar`. -/
def scorePct (score : ℚ) : ℚ := min (score * 100) 100

/-- Source expression `barW = (pct / 100) * maxW` in
`addEmotionScoreBar`. -/
def scoreBarW (score maxW : ℚ) : ℚ := scorePct score / 100 * maxW

/-- The filled rectangle of `addEmotionScoreBar` is drawn only under
`if (barW > 0)`; this is the width of the filled bar that actually
appears on the page (`0` when no rectangle is drawn). -/
def filledBarWidth (score maxW : ℚ) : ℚ :=
  let barW := scoreBarW score maxW
  if barW > 0 then barW else 0

-- ── Number formatting (Number.prototype.toFixed) ─────────────────────

/-- ECMA-262 rounding for `toFixed(f)` on a non-negative `q`: the
integer `n` with `n / 10^f` closest to `q`, ties resolved to the larger
`n`; that is `⌊q * 10^f + 1/2⌋`, computed here on the reduced
numerator/denominator as `⌊(2 * num * 10^f + den) / (2 * den)⌋`. -/
def fixedRound (pow10 : ℕ) (q : ℚ) : ℕ :=
  (Int.fdiv (2 * q.num * pow10 + q.den) (2 * q.den)).toNat

/-- Evaluation of `x.toFixed(4)` for a non-negative number: the rounded scaled value
printed with exactly four fractional digits. -/
def toFixed4abs (q : ℚ) : String :=
  let n : ℕ := fixedRound 10000 q
  toString (n / 10000) ++ "." ++ (toString (n % 10000 + 10000)).drop 1

/-- Evaluation of `x.toFixed(4)`: ECMA-262 applies the sign first, then rounds the
absolute value. -/
def toFixed4 (q : ℚ) : String :=
  if q < 0 then "-" ++ toFixed4abs (-q) else toFixed4abs q

/-- Evaluation of `pct.toFixed(1)` for a non-negative number, same rounding rule with
one fractional digit. -/
def toFixed1abs (q : ℚ) : String :=
  let n : ℕ := fixedRound 10 q
  toString (n / 10) ++ "." ++ toString (n % 10)

/-- Evaluation of `x.toFixed(1)`. -/
def toFixed1 (q : ℚ) : String :=
  if q < 0 then "-" ++ toFixed1abs (-q) else toFixed1abs q

-- ── Probability-score sorting ────────────────────────────────────────

/-- The comparator order used by `Object.entries(scores).sort(([, a],
[, b]) => b - a)`: entry `x` may precede entry `y` when the score of `y` is
at most the score of `x`. `Array.prototype.sort` is a stable sort, so the
embedding uses Lean's stable `List.mergeSort` with this order; input
entries are the own keys of `emotionScores` in insertion order. -/
def scoreDescBefore (x y : String × ℚ) : Bool := decide (y.2 ≤ x.2)

/-- Source expression `Object.entries(scores).sort(([, a], [, b]) => b - a)`. -/
def sortScores (l : List (String × ℚ)) : List (String × ℚ) :=
  l.mergeSort scoreDescBefore

-- ── Band-power table ─────────────────────────────────────────────────

/-- Source list `bands`: delta, theta, alpha, beta, gamma. -/
def bands : List String := ["delta", "theta", "alpha", "beta", "gamma"]

/-- One rendered cell of the band-power table: the upper-cased chip
label, the chip color, and the formatted value text. -/
structure BandCell where
  label : String
  color : ColorVal
  valueText : String
deriving DecidableEq, Repr

/-- Model of `band.toUpperCase()`, character by character. -/
def jsToUpper (s : String) : String :=
  String.mk (s.data.map Char.toUpper)

/-- The body of `addBandPowerTable`: for each band, a colored chip with
the band name upper-cased and the value `bandPowers?.[band] ?? 0`
formatted by `toFixed(4)`; the function returns `y + 22` regardless of
the values. -/
def addBandPowerTable (bandPowers : Option (List (String × ℚ))) (y : ℚ) :
    List BandCell × ℚ :=
  (bands.map (fun band =>
    { label := jsToUpper band
      color := resolveColor bandColors band
      valueText :=
        toFixed4 ((bandPowers.bind (fun bp => tableGet bp band)).getD 0) }),
   y + 22)

-- ── Header date, session rows, badge, filename ───────────────────────

/-- The top-right date string of the header (`addHeader`):
`result.createdAt ? formatDate(result.createdAt) :
new Date().toLocaleString()`. `fmt` models `formatDate` and `now`
models `new Date().toLocaleString()` at the render instant. -/
def headerDateStr (fmt : String → String) (now : String)
    (createdAt : Option String) : String :=
  match createdAt with
  | some c => fmt c
  | none => now

/-- The "Analysis Date:" value in the session-information block:
`result.createdAt ? formatDate(result.createdAt) : "N/A"`. The render
instant `now` is passed to show it is never consulted. -/
def analysisDateStr (fmt : String → String) (_now : String)
    (createdAt : Option String) : String :=
  match createdAt with
  | some c => fmt c
  | none => "N/A"

/-- The badge text of the primary-emotion section:
`result.emotion || "Unknown"` (the empty string is falsy). -/
def badgeLabel (emotion : Option String) : String :=
  match emotion with
  | some e => if e = "" then "Unknown" else e
  | none => "Unknown"

/-- The badge fill color: `EMOTION_COLORS[result.emotion] ||
[99, 102, 241]`; an absent field indexes the table with the string
`"undefined"` (JavaScript stringifies the property key). -/
def badgeColor (emotion : Option String) : ColorVal :=
  resolveColor EMOTION_COLORS (match emotion with
    | some e => e
    | none => "undefined")

/-- The generated filename:
`` `EmoHarmony_Report_${result.emotion || "EEG"}_${Date.now()}.pdf` ``. -/
def pdfFilename (emotion : Option String) (nowMs : ℕ) : String :=
  "EmoHarmony_Report_" ++
    (match emotion with
      | some e => if e = "" then "EEG" else e
      | none => "EEG") ++
    "_" ++ toString nowMs ++ ".pdf"

-- ── Neurological-ratio section ───────────────────────────────────────

/-- The `ratioLabels` dictionary of the ratio section. -/
def ratioLabels : List (String × String) :=
  [("alpha_beta_ratio", "Alpha/Beta Ratio (Relaxation Index)"),
   ("theta_alpha_ratio", "Theta/Alpha Ratio (Mental Load Index)"),
   ("fatigue_index", "Fatigue Index ((α+θ)/β)")]

/-- Result of `ratioLabels[key]`: an own label string, a truthy
inherited `Object.prototype` member, or `undefined`. -/
inductive LabelVal where
  | str : String → LabelVal
  | protoVal : LabelVal
  | undef : LabelVal
deriving DecidableEq, Repr

/-- Evaluation of `ratioLabels[key]`, including the prototype chain. -/
def ratioLabelIndex (key : String) : LabelVal :=
  match tableGet ratioLabels key with
  | some s => LabelVal.str s
  | none => if key ∈ objectProtoProps then LabelVal.protoVal else LabelVal.undef

/-- Source expression `label = ratioLabels[key] || key`. -/
def ratioRowLabel (key : String) : LabelVal :=
  match ratioLabelIndex key with
  | LabelVal.undef => LabelVal.str key
  | v => v

/-- One rendered ratio row: its label and its formatted value
(`typeof val === "number" ? val.toFixed(4) : val`; values are modelled
as numbers). -/
def ratioRow (key : String) (val : ℚ) : LabelVal × String :=
  (ratioRowLabel key, toFixed4 val)

/-- The ratio section: rendered only under `if (result.ratios &&
Object.keys(result.ratios).length > 0)`; `none` means the section is
omitted entirely. -/
def ratioSection (ratios : Option (List (String × ℚ))) :
    Option (List (LabelVal × String)) :=
  match ratios with
  | none => none
  | some l => if l.length > 0 then some (l.map (fun kv => ratioRow kv.1 kv.2)) else none

-- ── The record argument and the entry guard ──────────────────────────

/-- The fields of a report record that the generator reads. Absent
fields are `none`; numeric fields are modelled as ℚ. -/
structure ReportRecord where
  recordId : Option String := none
  datasetName : Option String := none
  modelUsed : Option String := none
  processingTime : Option ℚ := none
  createdAt : Option String := none
  emotion : Option String := none
  confidence : Option ℚ := none
  bandPowers : Option (List (String × ℚ)) := none
  emotionScores : Option (List (String × ℚ)) := none
  interpretation : Option String := none
  ratios : Option (List (String × ℚ)) := none

/-- The JavaScript value passed as the `result` argument of
`exportResultAsPDF`. -/
inductive JsArg where
  | jsNull : JsArg
  | jsUndefined : JsArg
  | num : ℚ → JsArg
  | nan : JsArg
  | str : String → JsArg
  | bool : Bool → JsArg
  | record : ReportRecord → JsArg

/-- JavaScript truthiness of the argument: the guard `if (!result)
return;` fires exactly on falsy values (`null`, `undefined`, `0`,
`NaN`, `""`, `false`). -/
def JsArg.truthy : JsArg → Bool
  | JsArg.jsNull => false
  | JsArg.jsUndefined => false
  | JsArg.num q => decide (q ≠ 0)
  | JsArg.nan => false
  | JsArg.str s => decide (s ≠ "")
  | JsArg.bool b => b
  | JsArg.record _ => true

/-- Property access on a truthy non-object primitive yields `undefined`
for every field, so the generator sees a record with every field
absent; a record argument is read as is. -/
def JsArg.asRecord : JsArg → ReportRecord
  | JsArg.record r => r
  | _ => {}

-- ── Footer pass and the op-level render trace ────────────────────────

/-- The static attribution string of the footer. -/
def attributionText : String :=
  "Generated by EmoHarmony — EEG Emotional Analysis Platform"

/-- One footer stamp: the left-aligned attribution and the right-aligned
`` `Page ${p} of ${totalPages}` `` text. -/
def footerStamp (p n : ℕ) : String × String :=
  (attributionText, "Page " ++ toString p ++ " of " ++ toString n)

/-- The footer pass `for (let p = 1; p <= totalPages; p++)`: one stamp
per page, in page order. -/
def footerStamps (n : ℕ) : List (String × String) :=
  (List.range n).map (fun i => footerStamp (i + 1) n)

/-- One coarse-grained operation of the render trace: a body section
(tagged with its section title as drawn by `addSectionTitle`, or
`"header"` for the banner) or a footer stamp. -/
inductive Op where
  | body : String → Op
  | footer : String → String → Op
deriving DecidableEq, Repr

/-- The section passes of `exportResultAsPDF` in source order; the
ratio section is present only under its guard. -/
def sectionOps (r : ReportRecord) : List Op :=
  [Op.body "header",
   Op.body "Session Information",
   Op.body "Primary Emotion Detected",
   Op.body "EEG Band Powers (μV²/Hz)",
   Op.body "Emotion Probability Scores",
   Op.body "Clinical Interpretation"] ++
  (match r.ratios with
   | none => []
   | some l => if l.length > 0 then [Op.body "Neurological Ratios"] else [])

/-- The full op-level trace of one render: all section passes, then the
footer pass over the final page count `n` of the document (page accounting
itself lives inside jsPDF). -/
def renderOps (r : ReportRecord) (n : ℕ) : List Op :=
  sectionOps r ++ (footerStamps n).map (fun s => Op.footer s.1 s.2)

/-- The observable content of one saved document: every displayed
datum the claims speak about, plus the op-level trace. -/
structure PDFDoc where
  headerDate : String
  analysisDate : String
  badgeText : String
  badgeFill : ColorVal
  bandCells : List BandCell
  scoreBars : List (String × ℚ × String)
  ratioRows : Option (List (LabelVal × String))
  ops : List Op
  filename : String
deriving Repr

/-- Source expression `maxW = pageW - 28` with the A4 page width of 210 mm; score
bars are drawn with width budget `maxW - 40`. -/
def pageW : ℚ := 210

/-- Build the document for a present record: each field is the output
of the corresponding section helper, in source order. Score bars carry
the emotion name, the drawn filled-bar width, and the
`` `${pct.toFixed(1)}%` `` text. -/
def buildDoc (fmt : String → String) (now : String) (nowMs : ℕ)
    (pages : ℕ) (r : ReportRecord) : PDFDoc :=
  let maxW := pageW - 28
  { headerDate := headerDateStr fmt now r.createdAt
    analysisDate := analysisDateStr fmt now r.createdAt
    badgeText := badgeLabel r.emotion
    badgeFill := badgeColor r.emotion
    bandCells := (addBandPowerTable r.bandPowers 0).1
    scoreBars := (sortScores (r.emotionScores.getD [])).map
      (fun kv => (kv.1, filledBarWidth kv.2 (maxW - 40), toFixed1 (scorePct kv.2) ++ "%"))
    ratioRows := ratioSection r.ratios
    ops := renderOps r pages
    filename := pdfFilename r.emotion nowMs }

/-- The observable outcome of `exportResultAsPDF`: `none` when the
guard `if (!result) return;` fires (no document is constructed or
saved), otherwise the saved document. -/
def exportResultAsPDF (fmt : String → String) (now : String) (nowMs : ℕ)
    (pages : ℕ) (result : JsArg) : Option PDFDoc :=
  if result.truthy then some (buildDoc fmt now nowMs pages result.asRecord)
  else none

-- ── Helper lemmas ────────────────────────────────────────────────────

/-- A key that is not among the own keys of a table looks up to `none`. -/
theorem tableGet_eq_none {α : Type} {table : List (String × α)} {key : String}
    (h : key ∉ table.map Prod.fst) : tableGet table key = none := by
  induction table with
  | nil => rfl
  | cons kv rest ih =>
    simp only [List.map_cons, List.mem_cons, not_or] at h
    simp only [tableGet, if_neg h.1, ih h.2]

/-- A key outside both the table and the `Object.prototype` chain
resolves to the shared fallback color. -/
theorem resolveColor_eq_fallback {table : List (String × RGB)} {key : String}
    (h1 : key ∉ table.map Prod.fst) (h2 : key ∉ objectProtoProps) :
    resolveColor table key = ColorVal.rgb fallbackColor := by
  simp [resolveColor, jsIndex, tableGet_eq_none h1, h2, ColorVal.truthy]

-- ── Claim theorems ───────────────────────────────────────────────────

/-- C1: the filled bar drawn by `addEmotionScoreBar` has width
`clamp(score, 0, 1) × trackWidth`; a score of `1.4` fills the whole
track and a score of `-0.1` draws nothing (zero width, never a
negative-width or overflowing bar). -/
theorem scoreBar_filled_width_clamped (score maxW : ℚ) (h : 0 ≤ maxW) :
    filledBarWidth score maxW = max 0 (min score 1) * maxW ∧
    filledBarWidth (mkRat 14 10) maxW = maxW ∧
    filledBarWidth (mkRat (-1) 10) maxW = 0 := by
  have key : ∀ s : ℚ, scoreBarW s maxW = min s 1 * maxW := by
    intro s
    unfold scoreBarW scorePct
    rcases le_total s 1 with h1 | h1
    · rw [min_eq_left (by linarith : s * 100 ≤ 100), min_eq_left h1]
      ring
    · rw [min_eq_right (by linarith : (100 : ℚ) ≤ s * 100), min_eq_right h1]
      norm_num
  have main : ∀ s : ℚ, filledBarWidth s maxW = max 0 (min s 1) * maxW := by
    intro s
    simp only [filledBarWidth, key s]
    split_ifs with hpos
    · have hm : 0 < min s 1 := by
        by_contra hm
        push_neg at hm
        nlinarith
      rw [max_eq_right hm.le]
    · push_neg at hpos
      rcases le_or_lt (min s 1) 0 with hm | hm
      · rw [max_eq_left hm, zero_mul]
      · have hw : maxW = 0 := by nlinarith
        rw [hw, mul_zero]
  refine ⟨main score, ?_, ?_⟩
  · rw [main (mkRat 14 10), min_eq_right (by decide : (1 : ℚ) ≤ mkRat 14 10),
      max_eq_right (by decide : (0 : ℚ) ≤ 1), one_mul]
  · rw [main (mkRat (-1) 10), min_eq_left (by decide : mkRat (-1) 10 ≤ 1),
      max_eq_left (by decide : mkRat (-1) 10 ≤ 0), zero_mul]

/-- Witness for C1 at the inputs named by the claim, on a 100-unit track. -/
theorem scoreBar_filled_width_clamped_witness :
    filledBarWidth (mkRat 14 10) 100 = max 0 (min (mkRat 14 10) 1) * 100 ∧
    filledBarWidth (mkRat 14 10) 100 = 100 ∧
    filledBarWidth (mkRat (-1) 10) 100 = 0 :=
  ⟨(scoreBar_filled_width_clamped (mkRat 14 10) 100 (by decide)).1,
   (scoreBar_filled_width_clamped 0 100 (by decide)).2.1,
   (scoreBar_filled_width_clamped 0 100 (by decide)).2.2⟩

/-- C3 counterexample: for a record with `createdAt` absent, the
displayed header date is exactly the render-instant clock string, so
a displayed date does depend on the current time (two different clock
readings give two different header dates). -/
theorem headerDate_uses_clock_counterexample :
    headerDateStr id "01 January 2025, 10:15 am" none =
      "01 January 2025, 10:15 am" ∧
    headerDateStr id "01 January 2025, 10:15 am" none ≠
      headerDateStr id "02 February 2026, 11:45 pm" none := by
  exact ⟨rfl, by decide⟩

/-- C3 amended: when `createdAt` is absent, the session-information
"Analysis Date" row shows the fixed placeholder "N/A" and never
consults the clock, but the top-right header timestamp falls back to
the current clock time (and the filename uses the current epoch
milliseconds). -/
theorem analysisDate_independent_of_clock (fmt : String → String)
    (now1 now2 : String) (createdAt : Option String) :
    analysisDateStr fmt now1 createdAt = analysisDateStr fmt now2 createdAt ∧
    analysisDateStr fmt now1 none = "N/A" ∧
    headerDateStr fmt now1 none = now1 := by
  refine ⟨?_, rfl, rfl⟩
  cases createdAt <;> rfl

/-- C4 counterexample: an unrecognized non-empty emotion string is
displayed verbatim on the badge, not as "Unknown"; and for the
unrecognized key "constructor" the badge color is the inherited
`Object.prototype` member, not the neutral fallback. -/
theorem badge_unrecognized_counterexample :
    badgeLabel (some "Bliss") = "Bliss" ∧
    badgeLabel (some "Bliss") ≠ "Unknown" ∧
    badgeColor (some "Bliss") = ColorVal.rgb fallbackColor ∧
    badgeLabel (some "constructor") ≠ "Unknown" ∧
    badgeColor (some "constructor") ≠ ColorVal.rgb fallbackColor := by
  decide

/-- C4 amended: an absent or empty emotion yields the "Unknown" badge
with the neutral fallback color; any other emotion string is displayed
verbatim, and its badge color is the neutral fallback whenever the
string is neither one of the five known labels nor an
`Object.prototype` property name. -/
theorem badge_label_and_color (e : String)
    (h1 : e ∉ EMOTION_COLORS.map Prod.fst) (h2 : e ∉ objectProtoProps)
    (h3 : e ≠ "") :
    badgeLabel none = "Unknown" ∧
    badgeColor none = ColorVal.rgb fallbackColor ∧
    badgeLabel (some "") = "Unknown" ∧
    badgeColor (some "") = ColorVal.rgb fallbackColor ∧
    badgeLabel (some e) = e ∧
    badgeColor (some e) = ColorVal.rgb fallbackColor := by
  refine ⟨rfl, by decide, rfl, by decide, by simp [badgeLabel, h3], ?_⟩
  unfold badgeColor
  exact resolveColor_eq_fallback h1 h2

/-- Witness for C4 amended at an unrecognized Unicode emotion. -/
theorem badge_label_and_color_witness :
    badgeLabel (some "Sérénité🙂") = "Sérénité🙂" ∧
    badgeColor (some "Sérénité🙂") = ColorVal.rgb fallbackColor :=
  ⟨(badge_label_and_color "Sérénité🙂" (by decide) (by decide)
      (by decide)).2.2.2.2.1,
   (badge_label_and_color "Sérénité🙂" (by decide) (by decide)
      (by decide)).2.2.2.2.2⟩

/-- C5 counterexample: keys inherited from `Object.prototype` do not
resolve to the fallback color — `table[key] || fallback` finds a truthy
inherited member and skips the fallback, in both categories. -/
theorem colorFor_prototype_key_counterexample :
    colorFor Category.emotion "constructor" = ColorVal.protoVal ∧
    colorFor Category.emotion "constructor" ≠ ColorVal.rgb fallbackColor ∧
    colorFor Category.band "toString" = ColorVal.protoVal ∧
    colorFor Category.band "toString" ≠ ColorVal.rgb fallbackColor := by
  decide

/-- C5 amended: every key of the fixed emotion table and of the fixed
band table maps to its own color, distinct within its category and
distinct from the fallback; every other string — empty string and
arbitrary Unicode included — resolves in both categories to the one
shared fallback color, except the `Object.prototype` property names,
which leak the inherited prototype member. -/
theorem colorFor_total_with_fallback (key : String)
    (h1 : key ∉ EMOTION_COLORS.map Prod.fst)
    (h2 : key ∉ bandColors.map Prod.fst)
    (h3 : key ∉ objectProtoProps) :
    (∀ kv ∈ EMOTION_COLORS, colorFor Category.emotion kv.1 = ColorVal.rgb kv.2) ∧
    (∀ kv ∈ bandColors, colorFor Category.band kv.1 = ColorVal.rgb kv.2) ∧
    (EMOTION_COLORS.map Prod.snd).Nodup ∧
    (bandColors.map Prod.snd).Nodup ∧
    fallbackColor ∉ EMOTION_COLORS.map Prod.snd ∧
    fallbackColor ∉ bandColors.map Prod.snd ∧
    colorFor Category.emotion key = ColorVal.rgb fallbackColor ∧
    colorFor Category.band key = ColorVal.rgb fallbackColor := by
  refine ⟨by decide, by decide, by decide, by decide, by decide, by decide, ?_, ?_⟩
  · simp only [colorFor]
    exact resolveColor_eq_fallback h1 h3
  · simp only [colorFor]
    exact resolveColor_eq_fallback h2 h3

/-- Witness for C5 amended at the empty string. -/
theorem colorFor_total_with_fallback_witness :
    colorFor Category.emotion "" = ColorVal.rgb fallbackColor ∧
    colorFor Category.band "" = ColorVal.rgb fallbackColor :=
  ⟨(colorFor_total_with_fallback "" (by decide) (by decide) (by decide)).2.2.2.2.2.2.1,
   (colorFor_total_with_fallback "" (by decide) (by decide) (by decide)).2.2.2.2.2.2.2⟩

/-- C2: the probability-bar list is the entries of `emotionScores`
sorted by score descending; tied scores keep the original key order
(`Array.prototype.sort` is stable, captured by the filter equation: for
every score value, the entries carrying it appear exactly as in the
input); the map `Calm 0.2, Happy 0.9, Sad 0.5` renders Happy, Sad,
Calm. -/
theorem scoreBars_sorted_desc_stable (l : List (String × ℚ)) (s : ℚ) :
    (sortScores l).Pairwise (fun x y => y.2 ≤ x.2) ∧
    (sortScores l).Perm l ∧
    (sortScores l).filter (fun x => decide (x.2 = s)) =
      l.filter (fun x => decide (x.2 = s)) ∧
    sortScores [("Calm", mkRat 2 10), ("Happy", mkRat 9 10), ("Sad", mkRat 5 10)] =
      [("Happy", mkRat 9 10), ("Sad", mkRat 5 10), ("Calm", mkRat 2 10)] := by
  have htrans : ∀ a b c : String × ℚ,
      scoreDescBefore a b → scoreDescBefore b c → scoreDescBefore a c := by
    intro a b c hab hbc
    simp only [scoreDescBefore, decide_eq_true_eq] at hab hbc ⊢
    exact le_trans hbc hab
  have htotal : ∀ a b : String × ℚ, scoreDescBefore a b || scoreDescBefore b a := by
    intro a b
    simp only [scoreDescBefore, Bool.or_eq_true, decide_eq_true_eq]
    exact le_total b.2 a.2
  refine ⟨?_, List.mergeSort_perm l scoreDescBefore, ?_, ?_⟩
  · exact (List.sorted_mergeSort htrans htotal l).imp (fun h => of_decide_eq_true h)
  · have hmem : ∀ a ∈ l.filter (fun x => decide (x.2 = s)), a.2 = s := by
      intro a ha
      rw [List.mem_filter, decide_eq_true_eq] at ha
      exact ha.2
    have hpair : (l.filter (fun x => decide (x.2 = s))).Pairwise
        (fun a b => scoreDescBefore a b) := by
      apply List.pairwise_of_forall_mem_list
      intro a ha b hb
      simp [scoreDescBefore, hmem a ha, hmem b hb]
    have hsub1 : List.Sublist (l.filter (fun x => decide (x.2 = s)))
        (List.mergeSort l scoreDescBefore) :=
      List.sublist_mergeSort htrans htotal hpair (List.filter_sublist l)
    have hself : (l.filter (fun x => decide (x.2 = s))).filter
        (fun x => decide (x.2 = s)) = l.filter (fun x => decide (x.2 = s)) := by
      apply List.filter_eq_self.mpr
      intro a ha
      rw [decide_eq_true_eq]
      exact hmem a ha
    have hsub2 : List.Sublist (l.filter (fun x => decide (x.2 = s)))
        ((List.mergeSort l scoreDescBefore).filter (fun x => decide (x.2 = s))) := by
      have h2 := hsub1.filter (fun x => decide (x.2 = s))
      rwa [hself] at h2
    have hperm : List.Perm
        ((List.mergeSort l scoreDescBefore).filter (fun x => decide (x.2 = s)))
        (l.filter (fun x => decide (x.2 = s))) :=
      (List.mergeSort_perm l scoreDescBefore).filter (fun x => decide (x.2 = s))
    exact (hsub2.eq_of_length hperm.length_eq.symm).symm
  · have h1 : scoreDescBefore ("Calm", mkRat 2 10) ("Happy", mkRat 9 10) = false := by
      decide
    have h2 : scoreDescBefore ("Happy", mkRat 9 10) ("Sad", mkRat 5 10) = true := by
      decide
    have h3 : scoreDescBefore ("Calm", mkRat 2 10) ("Sad", mkRat 5 10) = false := by
      decide
    simp [sortScores, List.mergeSort, List.splitInTwo, List.splitAt,
      List.splitAt.go, List.merge, h1, h2, h3]

/-- C6: calling the export with a null or an absent (undefined) record
is a silent no-op: the guard `if (!result) return;` fires before any
document is constructed or saved, and the embedding is a total
function, so nothing is raised. -/
theorem export_null_noop (fmt : String → String) (now : String)
    (nowMs pages : ℕ) :
    exportResultAsPDF fmt now nowMs pages JsArg.jsNull = none ∧
    exportResultAsPDF fmt now nowMs pages JsArg.jsUndefined = none :=
  ⟨rfl, rfl⟩

/-- C7 counterexample: a ratio entry whose key is the
`Object.prototype` property name "toString" is not labeled with the
raw key — `ratioLabels[key] || key` finds the truthy inherited member
and skips the `|| key` fallback. -/
theorem ratioLabel_prototype_key_counterexample :
    ratioRowLabel "toString" = LabelVal.protoVal ∧
    ratioRowLabel "toString" ≠ LabelVal.str "toString" := by
  decide

/-- C7 amended: the ratio section is rendered iff `ratios` is present
and non-empty; keys in the static dictionary get their human-readable
names; any other key that is not an `Object.prototype` property name is
labeled with the raw key (inherited property names leak the prototype
member instead); numeric values are formatted to four decimal places,
so 1.23 renders as "1.2300". -/
theorem ratioSection_conditional_rows (ratios : List (String × ℚ))
    (key : String) (hne : ratios ≠ [])
    (hk : key ∉ ratioLabels.map Prod.fst) (hp : key ∉ objectProtoProps) :
    ratioSection none = none ∧
    ratioSection (some []) = none ∧
    ratioSection (some ratios) = some (ratios.map (fun kv => ratioRow kv.1 kv.2)) ∧
    (∀ kv ∈ ratioLabels, ratioRowLabel kv.1 = LabelVal.str kv.2) ∧
    ratioRowLabel key = LabelVal.str key ∧
    ratioRow "alpha_beta_ratio" (mkRat 123 100) =
      (LabelVal.str "Alpha/Beta Ratio (Relaxation Index)", "1.2300") := by
  refine ⟨rfl, rfl, ?_, by decide, ?_, by decide⟩
  · have hlen : ratios.length > 0 := List.length_pos.mpr hne
    simp [ratioSection, hlen]
  · simp [ratioRowLabel, ratioLabelIndex, tableGet_eq_none hk, hp]

/-- Witness for C7 amended: one known-key row and one custom-key
label. -/
theorem ratioSection_conditional_rows_witness :
    ratioSection (some [("alpha_beta_ratio", mkRat 123 100)]) =
      some [(LabelVal.str "Alpha/Beta Ratio (Relaxation Index)", "1.2300")] ∧
    ratioRowLabel "custom_index" = LabelVal.str "custom_index" := by
  have h := ratioSection_conditional_rows [("alpha_beta_ratio", mkRat 123 100)]
    "custom_index" (by decide) (by decide) (by decide)
  refine ⟨?_, h.2.2.2.2.1⟩
  rw [h.2.2.1, List.map_cons, List.map_nil, h.2.2.2.2.2]

/-- C8: the footer pass is a suffix of the render trace (it runs after
every section pass); it stamps, for each page `i` of `n`, the static
attribution string and the text "Page i of n"; with 3 pages that is
exactly "Page 1 of 3", "Page 2 of 3", "Page 3 of 3". -/
theorem footer_pass_stamps (r : ReportRecord) (n i : ℕ)
    (h : i < (footerStamps n).length) :
    List.IsSuffix ((footerStamps n).map (fun st => Op.footer st.1 st.2))
      (renderOps r n) ∧
    (footerStamps n).length = n ∧
    (footerStamps n)[i] =
      (attributionText, "Page " ++ toString (i + 1) ++ " of " ++ toString n) ∧
    footerStamps 3 = [(attributionText, "Page 1 of 3"),
      (attributionText, "Page 2 of 3"), (attributionText, "Page 3 of 3")] := by
  refine ⟨⟨sectionOps r, rfl⟩, by simp [footerStamps], ?_, by decide⟩
  simp [footerStamps, footerStamp]

/-- Witness for C8 on a three-page document. -/
theorem footer_pass_stamps_witness :
    (footerStamps 3).length = 3 ∧
    (footerStamps 3).get ⟨1, by decide⟩ = (attributionText, "Page 2 of 3") := by
  have h := footer_pass_stamps {} 3 1 (by decide)
  refine ⟨h.2.1, ?_⟩
  rw [List.get_eq_getElem]
  exact h.2.2.1.trans (by decide)

/-- C9: with `bandPowers` entirely absent, every one of the five band
cells (delta, theta, alpha, beta, gamma) renders the value "0.0000",
and the table advances the cursor by the fixed height 22 regardless of
the band values. -/
theorem bandPowerTable_defaults (bp : Option (List (String × ℚ))) (y z : ℚ) :
    (addBandPowerTable none y).1.map BandCell.valueText =
      ["0.0000", "0.0000", "0.0000", "0.0000", "0.0000"] ∧
    (addBandPowerTable none y).1.map BandCell.label =
      ["DELTA", "THETA", "ALPHA", "BETA", "GAMMA"] ∧
    (addBandPowerTable bp z).2 = z + 22 := by
  have hy : (addBandPowerTable none y).1 = (addBandPowerTable none 0).1 := rfl
  refine ⟨?_, ?_, rfl⟩
  · rw [hy]
    decide
  · rw [hy]
    decide

/-- C10: the guard `if (!result) return;` tests JavaScript falsiness,
not just null/undefined: every falsy argument — null, undefined, 0,
the empty string, false, NaN — is a silent no-op, although 0, "" and
false are not an absent record. -/
theorem export_guard_tests_falsiness (fmt : String → String) (now : String)
    (nowMs pages : ℕ) (a : JsArg) (h : a.truthy = false) :
    exportResultAsPDF fmt now nowMs pages a = none ∧
    (JsArg.num 0).truthy = false ∧
    (JsArg.str "").truthy = false ∧
    (JsArg.bool false).truthy = false ∧
    JsArg.nan.truthy = false ∧
    JsArg.jsNull.truthy = false ∧
    JsArg.jsUndefined.truthy = false := by
  refine ⟨?_, by decide, by decide, rfl, rfl, rfl, rfl⟩
  simp [exportResultAsPDF, h]

/-- Witness for C10 at the falsy number 0. -/
theorem export_guard_tests_falsiness_witness :
    exportResultAsPDF id "now" 0 1 (JsArg.num 0) = none :=
  (export_guard_tests_falsiness id "now" 0 1 (JsArg.num 0) (by decide)).1

end EmoHarmony
